import Mathlib

/-
Verification of the question-set evaluation pipeline in
src/app/api/evaluate-question-set/route.ts.

The route implements a fan-out/fan-in evaluation pipeline: one evaluation
task per question (with a two-tier fallback chain), followed by a summary
generation step (external model with a deterministic fallback scorer), and
final assembly into an aggregated report.  The definitions below are a
shallow embedding of that TypeScript file: each definition mirrors one
function or expression of the source, with JavaScript truthiness made
explicit (an absent or empty string is falsy) and the external service
calls modelled as oracles describing their possible outcomes.
-/

namespace EvaluateQuestionSet

/-- Strength item of an individual evaluation: competency plus description
(types/evaluation shape as used by buildOverallSummaryPrompt). -/
structure Strength where
  competency : String
  description : String
deriving Repr, DecidableEq

/-- Improvement item: competency, suggestion and an example text.  The
source field name `example` is a Lean keyword, embedded here as
`exampleText`. -/
structure Improvement where
  competency : String
  suggestion : String
  exampleText : String
deriving Repr, DecidableEq

/-- Preliminary-analysis payload of an individual evaluation; the route
reads only its `isValid` flag (route.ts line 346). -/
structure PreliminaryAnalysis where
  isValid : Bool
deriving Repr, DecidableEq

/-- IndividualEvaluationResponse: the structured result of evaluating one
question/answer pair (performanceLevel, summary, strengths, improvements,
preliminaryAnalysis, optional failure annotation). -/
structure IndividualEvaluationResponse where
  performanceLevel : String
  summary : String
  strengths : List Strength
  improvements : List Improvement
  preliminaryAnalysis : PreliminaryAnalysis
  failureReason : Option String := none
deriving Repr, DecidableEq

/-- EvaluationRequest as constructed by processEvaluation (route.ts lines
94-106 and 131-142).  `stageType` is optional: the rebuilt request of the
last-resort branch omits it. -/
structure EvaluationRequest where
  question : String
  category : String
  difficulty : String
  keyPoints : List String
  userAnswer : String
  stageType : Option String := none
deriving Repr, DecidableEq

/-- StageInfo metadata copied into the aggregated report (route.ts lines
161-166). -/
structure StageInfo where
  stageType : String
  stageTitle : String
  questionSetIndex : Int
  questionCount : Nat
deriving Repr, DecidableEq

/-! ### Fallback scoring (generateFallbackSummary, route.ts lines 335-390) -/

/-- The filter predicate of route.ts lines 345-347: keep evaluations whose
preliminaryAnalysis.isValid holds and whose performanceLevel is not the
unassessable sentinel. -/
def isValidEvaluation (e : IndividualEvaluationResponse) : Bool :=
  e.preliminaryAnalysis.isValid && !(e.performanceLevel == "无法评估")

/-- validEvaluations of route.ts line 345: the filtered list. -/
def validEvaluations (evals : List IndividualEvaluationResponse) :
    List IndividualEvaluationResponse :=
  evals.filter isValidEvaluation

/-- The fixed level-to-ordinal table of route.ts lines 350-355. -/
def levelScores : List (String × Nat) :=
  [("助理级", 1), ("编剧级", 2), ("制片级", 3), ("导演级", 4)]

/-- The score of one performance level, route.ts line 363:
levelScores[level] with JavaScript fallback to 1 when the level is not a
key of the table (all table values are nonzero, so the JS disjunction
fires exactly on a missing key). -/
def levelScore (level : String) : Nat :=
  (levelScores.lookup level).getD 1

/-- totalScore of route.ts lines 361-364: a left fold accumulating the
level scores of the retained evaluations. -/
def totalScore (evals : List IndividualEvaluationResponse) : Nat :=
  (validEvaluations evals).foldl (fun sum e => sum + levelScore e.performanceLevel) 0

/-- avgScore of route.ts line 365.  The source divides only inside the
`validEvaluations.length > 0` guard; the embedding records the guarded
division as an Option so the unguarded branch provably performs none. -/
def avgScore (evals : List IndividualEvaluationResponse) : Option ℚ :=
  if 0 < (validEvaluations evals).length then
    some ((totalScore evals : ℚ) / ((validEvaluations evals).length : ℚ))
  else
    none

/-- The threshold chain of route.ts lines 367-375. -/
def tierOfAvg (avg : ℚ) : String :=
  if avg ≥ 3.5 then "总监级"
  else if avg ≥ 2.5 then "资深级"
  else if avg ≥ 1.5 then "专业级"
  else "助理级"

/-- The overallLevel computed by generateFallbackSummary: the declared
default 助理级 (route.ts line 357) is kept whenever no evaluation is
retained, otherwise the threshold chain applies to the average. -/
def overallLevelOf (evals : List IndividualEvaluationResponse) : String :=
  match avgScore evals with
  | some avg => tierOfAvg avg
  | none => "助理级"

/-- The templated summary sentence of route.ts line 378. -/
def fallbackSummaryText (si : StageInfo) (overallLevel : String) : String :=
  "在" ++ si.stageTitle ++ "的" ++ toString si.questionCount ++
    "道题目中，面试者整体表现达到" ++ overallLevel ++
    "水平。展现了一定的AI产品思维和专业能力，但在某些方面仍有提升空间。建议继续加强实践经验和深度思考能力。"

/-- generateFallbackSummary, route.ts lines 386-389: the returned object
literal, embedded as an association list from field name to string value
so the shape (the set of field names) is part of the result.  The source
returns the two fields overallLevel and overallSummary. -/
def generateFallbackSummary (evals : List IndividualEvaluationResponse)
    (si : StageInfo) : List (String × String) :=
  [("overallLevel", overallLevelOf evals),
   ("overallSummary", fallbackSummaryText si (overallLevelOf evals))]

/-- The field names of the JSON output format that buildOverallSummaryPrompt
instructs the external model to produce (route.ts lines 302-328). -/
def primarySummaryRequiredKeys : List String :=
  ["overallLevel", "summary", "strengths", "improvements"]



/-! ### Demo values used by concrete witnesses -/

/-- Concrete stage metadata used to instantiate witnesses. -/
def demoStage : StageInfo :=
  { stageType := "hr", stageTitle := "HR面试", questionSetIndex := 0, questionCount := 3 }

/-- Builds a minimal individual evaluation with the given performance level
and validity flag, used to instantiate witnesses. -/
def mkEvaluation (level : String) (valid : Bool) : IndividualEvaluationResponse :=
  { performanceLevel := level, summary := "评估摘要", strengths := [], improvements := [],
    preliminaryAnalysis := ⟨valid⟩ }

/-! ### Helper lemmas about the fallback scorer -/

lemma foldl_add_levelScore (l : List IndividualEvaluationResponse) (n : ℕ) :
    l.foldl (fun sum e => sum + levelScore e.performanceLevel) n
      = n + (l.map (fun e => levelScore e.performanceLevel)).sum := by
  induction l generalizing n with
  | nil => simp
  | cons e t ih => simp [List.foldl_cons, ih]; ring

lemma totalScore_eq_sum (evals : List IndividualEvaluationResponse) :
    totalScore evals
      = ((validEvaluations evals).map (fun e => levelScore e.performanceLevel)).sum := by
  simpa using foldl_add_levelScore (validEvaluations evals) 0

lemma levelScore_eq_one_of_not_mem (level : String)
    (h : level ∉ ["助理级", "编剧级", "制片级", "导演级"]) :
    levelScore level = 1 := by
  simp only [List.mem_cons, not_or] at h
  obtain ⟨h1, h2, h3, h4, -⟩ := h
  simp [levelScore, levelScores, List.lookup,
    beq_eq_false_iff_ne.mpr h1, beq_eq_false_iff_ne.mpr h2,
    beq_eq_false_iff_ne.mpr h3, beq_eq_false_iff_ne.mpr h4]

/-- The retention rule exactly as the spec words it: keep an evaluation when
preliminaryAnalysis.isValid holds and performanceLevel is not the
unassessable sentinel. -/
def specRetains (e : IndividualEvaluationResponse) : Prop :=
  e.preliminaryAnalysis.isValid = true ∧ e.performanceLevel ≠ "无法评估"

lemma isValidEvaluation_iff (e : IndividualEvaluationResponse) :
    isValidEvaluation e = true ↔ specRetains e := by
  simp [isValidEvaluation, specRetains, Bool.and_eq_true, Bool.not_eq_true',
    beq_eq_false_iff_ne]

/-- The average exactly as the spec words it: map each retained performance
level to its ordinal, sum the ordinals, divide by the retained count. -/
def specAverage (evals : List IndividualEvaluationResponse) : ℚ :=
  ((validEvaluations evals).map (fun e => (levelScore e.performanceLevel : ℚ))).sum
    / ((validEvaluations evals).length : ℚ)

lemma overallLevelOf_of_avg (evals : List IndividualEvaluationResponse) (avg : ℚ)
    (h : avgScore evals = some avg) : overallLevelOf evals = tierOfAvg avg := by
  unfold overallLevelOf
  rw [h]

/-! ### Claims about the fallback scorer -/

/-- Claim C4: fallback scoring maps the average ordinal score to the overall
tier with fixed inclusive thresholds (3.5 / 2.5 / 1.5), is deterministic
(identical input sequences give the identical tier), and an average of
exactly 3.5 resolves to the top tier 总监级. -/
theorem claim_C4_threshold_mapping (evals : List IndividualEvaluationResponse) :
    (∀ evals2, evals = evals2 → overallLevelOf evals = overallLevelOf evals2)
    ∧ (∀ avg : ℚ, avgScore evals = some avg →
        ((3.5 ≤ avg → overallLevelOf evals = "总监级")
          ∧ (2.5 ≤ avg → avg < 3.5 → overallLevelOf evals = "资深级")
          ∧ (1.5 ≤ avg → avg < 2.5 → overallLevelOf evals = "专业级")
          ∧ (avg < 1.5 → overallLevelOf evals = "助理级")))
    ∧ (avgScore evals = some (3.5 : ℚ) → overallLevelOf evals = "总监级") := by
  refine ⟨fun evals2 h => by rw [h], fun avg havg => ?_, fun havg => ?_⟩
  · rw [overallLevelOf_of_avg evals avg havg]
    refine ⟨fun h1 => ?_, fun h1 h2 => ?_, fun h1 h2 => ?_, fun h1 => ?_⟩
    · rw [tierOfAvg, if_pos h1]
    · rw [tierOfAvg, if_neg (not_le.mpr h2), if_pos h1]
    · rw [tierOfAvg, if_neg (not_le.mpr (h2.trans (by norm_num))),
        if_neg (not_le.mpr h2), if_pos h1]
    · rw [tierOfAvg, if_neg (not_le.mpr (h1.trans (by norm_num))),
        if_neg (not_le.mpr (h1.trans (by norm_num))), if_neg (not_le.mpr h1)]
  · rw [overallLevelOf_of_avg evals _ havg, tierOfAvg, if_pos (le_refl _)]

/-- Witness for claim C4: two retained evaluations at levels 导演级 (4) and
制片级 (3) average exactly 3.5 and resolve to 总监级. -/
theorem claim_C4_witness :
    avgScore [mkEvaluation "导演级" true, mkEvaluation "制片级" true] = some (3.5 : ℚ)
    ∧ overallLevelOf [mkEvaluation "导演级" true, mkEvaluation "制片级" true] = "总监级" := by
  have h1 : totalScore [mkEvaluation "导演级" true, mkEvaluation "制片级" true] = 7 := by rfl
  have h2 : (validEvaluations
      [mkEvaluation "导演级" true, mkEvaluation "制片级" true]).length = 2 := by rfl
  have havg : avgScore [mkEvaluation "导演级" true, mkEvaluation "制片级" true]
      = some (3.5 : ℚ) := by
    rw [avgScore, h1, h2]
    norm_num
  exact ⟨havg, (claim_C4_threshold_mapping _).2.2 havg⟩

/-- Claim C5: when the filtered set of valid/assessable evaluations is
empty, no average is computed (the guarded division is never reached, so
avgScore is none) and the fallback summary carries the bottom tier
助理级. -/
theorem claim_C5_no_valid_evaluations (evals : List IndividualEvaluationResponse)
    (si : StageInfo) (h : validEvaluations evals = []) :
    avgScore evals = none
    ∧ generateFallbackSummary evals si
        = [("overallLevel", "助理级"), ("overallSummary", fallbackSummaryText si "助理级")] := by
  have hlen : (validEvaluations evals).length = 0 := by rw [h]; rfl
  have hnone : avgScore evals = none := by
    rw [avgScore, hlen]
    simp
  have hlvl : overallLevelOf evals = "助理级" := by
    unfold overallLevelOf
    rw [hnone]
  exact ⟨hnone, by rw [generateFallbackSummary, hlvl]⟩

/-- Witness for claim C5: a single invalid evaluation filters to the empty
list, yielding no average and the bottom tier. -/
theorem claim_C5_witness :
    validEvaluations [mkEvaluation "导演级" false] = []
    ∧ avgScore [mkEvaluation "导演级" false] = none
    ∧ generateFallbackSummary [mkEvaluation "导演级" false] demoStage
        = [("overallLevel", "助理级"),
           ("overallSummary", fallbackSummaryText demoStage "助理级")] := by
  have h : validEvaluations [mkEvaluation "导演级" false] = [] := by rfl
  have hc := claim_C5_no_valid_evaluations [mkEvaluation "导演级" false] demoStage h
  exact ⟨h, hc.1, hc.2⟩

/-- Claim C7: fallback scoring retains exactly the evaluations whose
preliminaryAnalysis.isValid holds and whose performanceLevel is not the
unassessable sentinel, maps the four levels to ordinals 1..4 through the
fixed table, and averages those ordinals (sum of ordinals over retained
count). -/
theorem claim_C7_retention_and_scoring (evals : List IndividualEvaluationResponse) :
    (∀ e, e ∈ validEvaluations evals ↔ e ∈ evals ∧ specRetains e)
    ∧ levelScore "助理级" = 1 ∧ levelScore "编剧级" = 2
    ∧ levelScore "制片级" = 3 ∧ levelScore "导演级" = 4
    ∧ (validEvaluations evals ≠ [] → avgScore evals = some (specAverage evals)) := by
  refine ⟨fun e => ?_, rfl, rfl, rfl, rfl, fun h => ?_⟩
  · rw [validEvaluations, List.mem_filter, isValidEvaluation_iff]
  · have hlen : 0 < (validEvaluations evals).length := List.length_pos.mpr h
    rw [avgScore, if_pos hlen, specAverage, totalScore_eq_sum]
    congr 1
    rw [Nat.cast_list_sum, List.map_map]
    rfl

/-- Witness for claim C7: one retained 制片级 evaluation is nonempty after
filtering, and the code's average agrees with the spec-side average. -/
theorem claim_C7_witness :
    validEvaluations [mkEvaluation "制片级" true] ≠ []
    ∧ avgScore [mkEvaluation "制片级" true]
        = some (specAverage [mkEvaluation "制片级" true]) := by
  have h : validEvaluations [mkEvaluation "制片级" true] ≠ [] := by decide
  exact ⟨h, (claim_C7_retention_and_scoring _).2.2.2.2.2 h⟩

/-- Claim C9: a retained evaluation whose performanceLevel is none of the
four table labels is not excluded from the average; it contributes the
lowest ordinal 1, so on its own it scores the bottom tier. -/
theorem claim_C9_unrecognized_level (e : IndividualEvaluationResponse)
    (hv : isValidEvaluation e = true)
    (hl : e.performanceLevel ∉ ["助理级", "编剧级", "制片级", "导演级"]) :
    validEvaluations [e] = [e]
    ∧ levelScore e.performanceLevel = 1
    ∧ avgScore [e] = some 1
    ∧ overallLevelOf [e] = "助理级" := by
  have hval : validEvaluations [e] = [e] := by
    simp [validEvaluations, List.filter, hv]
  have hs := levelScore_eq_one_of_not_mem _ hl
  have h1 : totalScore [e] = 1 := by
    rw [totalScore, hval]
    simp [hs]
  have h2 : (validEvaluations [e]).length = 1 := by rw [hval]; rfl
  have havg : avgScore [e] = some 1 := by
    rw [avgScore, h1, h2]
    norm_num
  refine ⟨hval, hs, havg, ?_⟩
  rw [overallLevelOf_of_avg _ _ havg, tierOfAvg,
    if_neg (by norm_num), if_neg (by norm_num), if_neg (by norm_num)]

/-- Witness for claim C9: a valid evaluation at the unrecognized level
大师级 is retained, scores ordinal 1, and yields the bottom tier. -/
theorem claim_C9_witness :
    isValidEvaluation (mkEvaluation "大师级" true) = true
    ∧ "大师级" ∉ (["助理级", "编剧级", "制片级", "导演级"] : List String)
    ∧ validEvaluations [mkEvaluation "大师级" true] = [mkEvaluation "大师级" true]
    ∧ avgScore [mkEvaluation "大师级" true] = some 1
    ∧ overallLevelOf [mkEvaluation "大师级" true] = "助理级" := by
  have hc := claim_C9_unrecognized_level (mkEvaluation "大师级" true) (by decide) (by decide)
  exact ⟨by decide, by decide, hc.1, hc.2.2.1, hc.2.2.2⟩

/-! ### Claim C3: shape of the fallback summary versus the primary shape -/

/-- Claim C3 counterexample: at a concrete input, the fallback summary
object has no field named summary — its text lives under overallSummary —
while the primary path's instructed output shape does require a summary
field, so the two shapes are not identical as the claim states. -/
theorem claim_C3_counterexample :
    (generateFallbackSummary [] demoStage).lookup "summary" = none
    ∧ (generateFallbackSummary [] demoStage).map Prod.fst ≠ primarySummaryRequiredKeys
    ∧ "summary" ∈ primarySummaryRequiredKeys :=
  ⟨rfl, by decide, by decide⟩

/-- Claim C3 (amended): the fallback summary always has exactly the fields
overallLevel and overallSummary — it shares the overallLevel field with the
primary shape and never populates strengths or improvements, but its
summary text is under the key overallSummary rather than summary. -/
theorem claim_C3_fallback_shape (evals : List IndividualEvaluationResponse)
    (si : StageInfo) :
    (generateFallbackSummary evals si).map Prod.fst = ["overallLevel", "overallSummary"]
    ∧ (generateFallbackSummary evals si).lookup "strengths" = none
    ∧ (generateFallbackSummary evals si).lookup "improvements" = none
    ∧ (generateFallbackSummary evals si).lookup "summary" = none
    ∧ (generateFallbackSummary evals si).lookup "overallLevel" = some (overallLevelOf evals)
    ∧ "overallLevel" ∈ primarySummaryRequiredKeys :=
  ⟨rfl, rfl, rfl, rfl, rfl, by decide⟩

/-! ### Per-question dispatcher (processEvaluation, route.ts lines 88-146) -/

/-- The shared key-point list of route.ts lines 98-103 and 135-140. -/
def defaultKeyPoints : List String :=
  ["理解问题核心", "展现AI产品思维", "提供具体可行的解决方案", "考虑技术与商业的平衡"]

/-- The userAnswer of route.ts lines 91 and 141: answers[index] with the
JavaScript disjunction falling back to the 未回答 sentinel, so an absent
entry and an empty-string entry both yield the sentinel. -/
def answerAt (answers : List String) (i : Nat) : String :=
  match answers.get? i with
  | some a => if a = "" then "未回答" else a
  | none => "未回答"

/-- The requestData of route.ts lines 94-106, as built inside the per
question map (stageType present). -/
def buildRequestData (stageType question userAnswer : String) : EvaluationRequest :=
  { question := question, category := stageType, difficulty := "中等",
    keyPoints := defaultKeyPoints, userAnswer := userAnswer,
    stageType := some stageType }

/-- The rebuilt requestData of route.ts lines 131-142 in the last-resort
branch; this literal omits the stageType field. -/
def buildRescueRequestData (stageType question userAnswer : String) : EvaluationRequest :=
  { question := question, category := stageType, difficulty := "中等",
    keyPoints := defaultKeyPoints, userAnswer := userAnswer,
    stageType := none }

/-- Modelled from the spec: aiEvaluationService.generateFallbackEvaluation
lives in src/lib/ai-service, which is not part of the given sources.  Per
spec section 4.2 it is a pure total function producing a generic but
structurally complete individual evaluation (neutral performance level,
generic strength and improvement text); a supplied failure reason is
embedded only as a diagnostic annotation and never affects the structural
shape. -/
def generateFallbackEvaluation (req : EvaluationRequest)
    (reason : Option String) : IndividualEvaluationResponse :=
  { performanceLevel := "助理级",
    summary := "评估服务暂时不可用，已生成备用评估。问题：" ++ req.question,
    strengths := [{ competency := "基本作答",
                    description := "提交了回答：" ++ req.userAnswer }],
    improvements := [{ competency := "答案完整性", suggestion := "建议补充更多细节",
                       exampleText := "结合具体案例展开说明" }],
    preliminaryAnalysis := ⟨true⟩,
    failureReason := reason }

/-- Oracle describing how the external calls of one per-question task turn
out: the Evaluator call succeeds with a result; or it throws and the inner
fallback call (route.ts line 117) supplies the result; or — the defensive
case of route.ts lines 127-145 — the fallback call also throws, rejecting
the task promise with that reason. -/
inductive TaskOutcome where
  | success (r : IndividualEvaluationResponse)
  | primaryFailed (error : String)
  | bothFailed (reason : String)

/-- One settled entry of Promise.allSettled (route.ts line 122). -/
inductive SettledResult where
  | fulfilled (value : IndividualEvaluationResponse)
  | rejected (reason : String)
deriving Repr, DecidableEq

/-- The body of the per-question map of route.ts lines 90-119: try the
Evaluator, on failure return the fallback evaluation for the same request;
a hypothetical failure of that fallback call rejects the promise. -/
def settleTask (outcome : TaskOutcome) (req : EvaluationRequest) : SettledResult :=
  match outcome with
  | .success r => .fulfilled r
  | .primaryFailed _ => .fulfilled (generateFallbackEvaluation req none)
  | .bothFailed reason => .rejected reason

/-- The per-index entry of route.ts lines 124-146: a fulfilled task yields
its value; a rejected one yields the last-resort fallback evaluation over
the rebuilt request, annotated with the rejection reason. -/
def evaluateEntry (outcome : TaskOutcome) (stageType question userAnswer : String) :
    IndividualEvaluationResponse :=
  match settleTask outcome (buildRequestData stageType question userAnswer) with
  | .fulfilled v => v
  | .rejected reason =>
      generateFallbackEvaluation (buildRescueRequestData stageType question userAnswer)
        (some reason)

/-- individualEvaluations of route.ts lines 90-146: map over the questions
with their indices, settling each task independently. -/
def individualEvaluationsOf (outcomes : Nat → TaskOutcome) (stageType : String)
    (questions answers : List String) : List IndividualEvaluationResponse :=
  questions.enum.map fun p => evaluateEntry (outcomes p.1) stageType p.2 (answerAt answers p.1)

lemma individualEvaluationsOf_length (outcomes : Nat → TaskOutcome) (stageType : String)
    (questions answers : List String) :
    (individualEvaluationsOf outcomes stageType questions answers).length
      = questions.length := by
  rw [individualEvaluationsOf, List.length_map, List.enum_length]

lemma individualEvaluationsOf_get? (outcomes : Nat → TaskOutcome) (stageType : String)
    (questions answers : List String) (i : Nat) (h : i < questions.length) :
    (individualEvaluationsOf outcomes stageType questions answers).get? i
      = some (evaluateEntry (outcomes i) stageType (questions.get ⟨i, h⟩)
          (answerAt answers i)) := by
  rw [individualEvaluationsOf, List.get?_map, List.get?_enum, List.get?_eq_get h]
  rfl

/-- Claim C1: for every question list and every answers list, the pipeline
produces exactly one individual evaluation per question, in input order,
with the entry at index i derived from question i, regardless of how the
per-question Evaluator calls turn out. -/
theorem claim_C1_count_and_order (outcomes : Nat → TaskOutcome) (stageType : String)
    (questions answers : List String) :
    (individualEvaluationsOf outcomes stageType questions answers).length = questions.length
    ∧ ∀ i (h : i < questions.length),
        (individualEvaluationsOf outcomes stageType questions answers).get? i
          = some (evaluateEntry (outcomes i) stageType (questions.get ⟨i, h⟩)
              (answerAt answers i)) :=
  ⟨individualEvaluationsOf_length outcomes stageType questions answers,
   fun i h => individualEvaluationsOf_get? outcomes stageType questions answers i h⟩

/-- Witness for claim C1: two questions whose tasks both reject still
produce exactly two entries, the first derived from the first question. -/
theorem claim_C1_witness :
    (individualEvaluationsOf (fun _ => TaskOutcome.bothFailed "网络错误") "hr"
        ["问题一", "问题二"] []).length = 2
    ∧ (0 : Nat) < 2
    ∧ (individualEvaluationsOf (fun _ => TaskOutcome.bothFailed "网络错误") "hr"
        ["问题一", "问题二"] []).get? 0
        = some (evaluateEntry (TaskOutcome.bothFailed "网络错误") "hr" "问题一" "未回答") := by
  have hc := claim_C1_count_and_order (fun _ => TaskOutcome.bothFailed "网络错误") "hr"
    ["问题一", "问题二"] []
  exact ⟨hc.1, by decide, hc.2 0 (by decide)⟩

/-- Claim C2: a primary Evaluator failure at index i is absorbed by the
fallback over the same request; if that call also fails, the last-resort
fallback receives the triggering reason and supplies the entry at index i,
so no individual task failure reaches the caller. -/
theorem claim_C2_fallback_chain (outcomes : Nat → TaskOutcome) (stageType : String)
    (questions answers : List String) (i : Nat) (h : i < questions.length) :
    (∀ e, outcomes i = TaskOutcome.primaryFailed e →
        (individualEvaluationsOf outcomes stageType questions answers).get? i
          = some (generateFallbackEvaluation
              (buildRequestData stageType (questions.get ⟨i, h⟩) (answerAt answers i)) none))
    ∧ (∀ reason, outcomes i = TaskOutcome.bothFailed reason →
        (individualEvaluationsOf outcomes stageType questions answers).get? i
          = some (generateFallbackEvaluation
              (buildRescueRequestData stageType (questions.get ⟨i, h⟩) (answerAt answers i))
              (some reason))) := by
  constructor
  · intro e ho
    rw [individualEvaluationsOf_get? outcomes stageType questions answers i h]
    simp [evaluateEntry, settleTask, ho]
  · intro reason ho
    rw [individualEvaluationsOf_get? outcomes stageType questions answers i h]
    simp [evaluateEntry, settleTask, ho]

/-- Witness for claim C2: with the single task rejecting for reason
服务崩溃, the entry at index 0 is the last-resort fallback evaluation
annotated with that reason. -/
theorem claim_C2_witness :
    (0 : Nat) < 1
    ∧ (individualEvaluationsOf (fun _ => TaskOutcome.bothFailed "服务崩溃") "hr"
        ["问题一"] ["我的回答"]).get? 0
        = some (generateFallbackEvaluation (buildRescueRequestData "hr" "问题一" "我的回答")
            (some "服务崩溃")) := by
  refine ⟨by decide, ?_⟩
  exact (claim_C2_fallback_chain (fun _ => TaskOutcome.bothFailed "服务崩溃") "hr"
    ["问题一"] ["我的回答"] 0 (by decide)).2 "服务崩溃" rfl

/-- Claim C10: an answer that is present but empty is treated exactly like
a missing answer — in both cases the userAnswer handed to the Evaluator is
the 未回答 sentinel, and the built EvaluationRequest is identical. -/
theorem claim_C10_empty_answer_sentinel (stageType question : String)
    (answers : List String) (i : Nat)
    (h : answers.get? i = some "" ∨ answers.get? i = none) :
    answerAt answers i = "未回答"
    ∧ buildRequestData stageType question (answerAt answers i)
        = buildRequestData stageType question "未回答" := by
  have ha : answerAt answers i = "未回答" := by
    rcases h with h | h <;> rw [List.get?_eq_getElem?] at h <;> simp [answerAt, h]
  exact ⟨ha, by rw [ha]⟩

/-- Witness for claim C10: the one-element answers list holding the empty
string yields the sentinel at index 0. -/
theorem claim_C10_witness :
    (([""] : List String).get? 0 = some "" ∨ ([""] : List String).get? 0 = none)
    ∧ answerAt [""] 0 = "未回答"
    ∧ buildRequestData "hr" "问题一" (answerAt [""] 0)
        = buildRequestData "hr" "问题一" "未回答" := by
  have h : (([""] : List String).get? 0 = some "" ∨ ([""] : List String).get? 0 = none) := by
    left
    rfl
  have hc := claim_C10_empty_answer_sentinel "hr" "问题一" [""] 0 h
  exact ⟨h, hc.1, hc.2⟩


/-! ### Summary generator (generateOverallSummary, route.ts lines 192-256) -/

/-- Oracle describing the outcome of the aggregation-model transport: the
fetch (or reading its body) throws; or it replies with an ok flag, the
optional content string of choices[0].message.content, and whether
JSON.parse succeeds on that content. -/
inductive FetchOutcome where
  | throws (msg : String)
  | replied (ok : Bool) (content : Option String) (parses : Bool)

/-- Result of generateOverallSummary: either the parsed reply of the
external model (kept opaque as the content string that parsed), or the
deterministic fallback summary object. -/
inductive SummaryOutcome where
  | external (content : String)
  | fallback (fields : List (String × String))
deriving Repr, DecidableEq

/-- generateOverallSummary, route.ts lines 192-256, with JavaScript
truthiness explicit: a missing or empty credential short-circuits to the
fallback before any call; a thrown fetch, a non-ok status, a missing or
empty content string, and an unparsable content each fall back.  The
returned flag records whether the external call was attempted. -/
def generateOverallSummary (apiKey : Option String) (fetch : FetchOutcome)
    (evals : List IndividualEvaluationResponse) (si : StageInfo) :
    SummaryOutcome × Bool :=
  match apiKey with
  | none => (.fallback (generateFallbackSummary evals si), false)
  | some key =>
    if key = "" then (.fallback (generateFallbackSummary evals si), false)
    else
      match fetch with
      | .throws _ => (.fallback (generateFallbackSummary evals si), true)
      | .replied ok content parses =>
        if ok = false then (.fallback (generateFallbackSummary evals si), true)
        else
          match content with
          | none => (.fallback (generateFallbackSummary evals si), true)
          | some c =>
            if c = "" then (.fallback (generateFallbackSummary evals si), true)
            else if parses then (.external c, true)
            else (.fallback (generateFallbackSummary evals si), true)

/-- Claim C6: every aggregation-model failure — missing credential, thrown
transport, non-success status, missing or empty reply content, unparsable
reply — makes the Summary Generator return the deterministic fallback
summary rather than an error, and a missing (or empty) credential reaches
the fallback without attempting the external call. -/
theorem claim_C6_summary_failures (key : String) (hk : key ≠ "")
    (evals : List IndividualEvaluationResponse) (si : StageInfo) :
    (∀ f, generateOverallSummary none f evals si
        = (.fallback (generateFallbackSummary evals si), false))
    ∧ (∀ f, generateOverallSummary (some "") f evals si
        = (.fallback (generateFallbackSummary evals si), false))
    ∧ (∀ msg, generateOverallSummary (some key) (.throws msg) evals si
        = (.fallback (generateFallbackSummary evals si), true))
    ∧ (∀ content parses,
        generateOverallSummary (some key) (.replied false content parses) evals si
          = (.fallback (generateFallbackSummary evals si), true))
    ∧ (∀ parses, generateOverallSummary (some key) (.replied true none parses) evals si
        = (.fallback (generateFallbackSummary evals si), true))
    ∧ (∀ parses, generateOverallSummary (some key) (.replied true (some "") parses) evals si
        = (.fallback (generateFallbackSummary evals si), true))
    ∧ (∀ c, c ≠ "" →
        generateOverallSummary (some key) (.replied true (some c) false) evals si
          = (.fallback (generateFallbackSummary evals si), true)) := by
  refine ⟨fun f => rfl, fun f => ?_, fun msg => ?_, fun content parses => ?_,
    fun parses => ?_, fun parses => ?_, fun c hc => ?_⟩
  · simp [generateOverallSummary]
  · simp [generateOverallSummary, hk]
  · simp [generateOverallSummary, hk]
  · simp [generateOverallSummary, hk]
  · simp [generateOverallSummary, hk]
  · simp [generateOverallSummary, hk, hc]

/-- Witness for claim C6: with a configured credential and an unparsable
nonempty reply, the generator returns the fallback summary after an
attempted call. -/
theorem claim_C6_witness :
    ("sk-demo" : String) ≠ ""
    ∧ ("not json" : String) ≠ ""
    ∧ generateOverallSummary (some "sk-demo")
        (FetchOutcome.replied true (some "not json") false) [] demoStage
        = (SummaryOutcome.fallback (generateFallbackSummary [] demoStage), true) := by
  refine ⟨by decide, by decide, ?_⟩
  exact (claim_C6_summary_failures "sk-demo" (by decide) [] demoStage).2.2.2.2.2.2
    "not json" (by decide)


/-! ### Report assembly and the asynchronous mode (route.ts lines 10-184) -/

/-- AggregatedReport of route.ts lines 159-170. -/
structure AggregatedReport where
  evaluationId : String
  stageInfo : StageInfo
  individualEvaluations : List IndividualEvaluationResponse
  overallSummary : SummaryOutcome
  timestamp : String

/-- The evaluation identifier generated at route.ts line 25 before any
evaluation work starts, from the clock reading and the random suffix. -/
def generateEvaluationId (now : Nat) (rand : String) : String :=
  "eval_" ++ toString now ++ "_" ++ rand

/-- The report identifier of route.ts line 160: the optional evaluationId
parameter, with the JavaScript disjunction minting a fresh timestamp-based
id when the parameter is absent or empty. -/
def reportEvaluationId (evaluationId : Option String) (now : Nat) : String :=
  match evaluationId with
  | some id => if id = "" then "eval_" ++ toString now else id
  | none => "eval_" ++ toString now

/-- Environment of one pipeline run: the per-question task outcomes plus
the aggregation-model credential and transport outcome. -/
structure PipelineEnv where
  outcomes : Nat → TaskOutcome
  apiKey : Option String
  fetch : FetchOutcome

/-- processEvaluation, route.ts lines 71-184: per-question dispatch, then
summary generation, then assembly of the aggregated report. -/
def processEvaluation (env : PipelineEnv) (stageType : String)
    (questions answers : List String) (stageTitle : String)
    (questionSetIndex : Int) (evaluationId : Option String) (now : Nat)
    (timestamp : String) : AggregatedReport :=
  let evals := individualEvaluationsOf env.outcomes stageType questions answers
  let si : StageInfo :=
    { stageType := stageType, stageTitle := stageTitle,
      questionSetIndex := questionSetIndex, questionCount := questions.length }
  { evaluationId := reportEvaluationId evaluationId now,
    stageInfo := si,
    individualEvaluations := evals,
    overallSummary := (generateOverallSummary env.apiKey env.fetch evals si).1,
    timestamp := timestamp }

/-- The asynchronous response literal of route.ts lines 38-42. -/
structure AsyncResponse where
  evaluationId : String
  message : String
  status : String
deriving Repr, DecidableEq

/-- The async branch of POST, route.ts lines 23-43: generate the id, hand
it to the background pipeline, and return the processing response at once.
The pair holds the immediate response and the report the background task
eventually assembles (now and rand feed the id generator; bgNow and
timestamp are read later by the background task). -/
def postAsync (env : PipelineEnv) (stageType : String)
    (questions answers : List String) (stageTitle : String)
    (questionSetIndex : Int) (now : Nat) (rand : String) (bgNow : Nat)
    (timestamp : String) : AsyncResponse × AggregatedReport :=
  let evaluationId := generateEvaluationId now rand
  ({ evaluationId := evaluationId, message := "评估已启动，结果将异步生成",
     status := "processing" },
   processEvaluation env stageType questions answers stageTitle questionSetIndex
     (some evaluationId) bgNow timestamp)

lemma generateEvaluationId_ne_empty (now : Nat) (rand : String) :
    generateEvaluationId now rand ≠ "" := by
  intro h
  rw [generateEvaluationId] at h
  have hl := congrArg String.length h
  simp [String.length_append] at hl
  exact absurd hl.1.2 (by decide)

/-- Claim C8: in asynchronous mode the POST handler answers with the
processing response {evaluationId, message, status}; that response depends
only on the identifier generated up front (not on any evaluation outcome
or on the background run), and the report the background pipeline
eventually assembles carries the very identifier returned at submission
time. -/
theorem claim_C8_async_identifier (env : PipelineEnv) (stageType : String)
    (questions answers : List String) (stageTitle : String)
    (questionSetIndex : Int) (now : Nat) (rand : String) (bgNow : Nat)
    (timestamp : String) :
    (postAsync env stageType questions answers stageTitle questionSetIndex
        now rand bgNow timestamp).1.status = "processing"
    ∧ (postAsync env stageType questions answers stageTitle questionSetIndex
        now rand bgNow timestamp).1.message = "评估已启动，结果将异步生成"
    ∧ (postAsync env stageType questions answers stageTitle questionSetIndex
        now rand bgNow timestamp).1.evaluationId = generateEvaluationId now rand
    ∧ (postAsync env stageType questions answers stageTitle questionSetIndex
        now rand bgNow timestamp).2.evaluationId
      = (postAsync env stageType questions answers stageTitle questionSetIndex
        now rand bgNow timestamp).1.evaluationId
    ∧ (∀ env2 bgNow2 timestamp2,
        (postAsync env2 stageType questions answers stageTitle questionSetIndex
          now rand bgNow2 timestamp2).1
        = (postAsync env stageType questions answers stageTitle questionSetIndex
          now rand bgNow timestamp).1) := by
  refine ⟨rfl, rfl, rfl, ?_, fun env2 bgNow2 timestamp2 => rfl⟩
  simp only [postAsync, processEvaluation]
  rw [reportEvaluationId, if_neg (generateEvaluationId_ne_empty now rand)]

end EvaluateQuestionSet
